import Mathlib

/-!
Shallow embedding of `src/core/lib/channel/message_size_filter.c` (gRPC
message-size filter, 2016 vintage) and proofs about it.

Modelling conventions:
* C `int` caps become `Int`; a negative cap means "absent / unlimited",
  exactly as in the source (`-1` is the unlimited default).
* Message byte lengths (`grpc_byte_stream.length`, a `uint32_t`) become `Nat`.
* The filter's side effects (terminating the call, forwarding the op to the
  next filter, scheduling a closure) are reified as a list of `FilterAction`
  values produced by each entry point.
* `grpc_error` is reproduced as an inductive value: `GRPC_ERROR_NONE` or an
  error with a message, a list of integer tags and a list of child errors.
* Fields of `transport_stream_op` the filter never touches are collected in
  one polymorphic `rest` field.
-/

/-- C macro `DEFAULT_MAX_SEND_MESSAGE_LENGTH`, value `-1` ("Unlimited"). -/
def DEFAULT_MAX_SEND_MESSAGE_LENGTH : Int := -1

/-- C macro `DEFAULT_MAX_RECV_MESSAGE_LENGTH`, value `4 * 1024 * 1024`. -/
def DEFAULT_MAX_RECV_MESSAGE_LENGTH : Int := 4 * 1024 * 1024

/-- Constant `INT_MAX` from `<limits.h>` on the 32-bit-int platforms gRPC targets. -/
def INT_MAX : Int := 2147483647

/-- Status code `GRPC_STATUS_INVALID_ARGUMENT` from the gRPC status enum (value 3). -/
def GRPC_STATUS_INVALID_ARGUMENT : Int := 3

/-- Tag key `GRPC_ERROR_INT_GRPC_STATUS` of `grpc_error_set_int`; an opaque
tag identifier, modelled as a fixed natural number. -/
def GRPC_ERROR_INT_GRPC_STATUS : Nat := 0

/-- Channel-argument key `GRPC_ARG_MAX_SEND_MESSAGE_LENGTH`. -/
def GRPC_ARG_MAX_SEND_MESSAGE_LENGTH : String := "max_send_message_length"

/-- Channel-argument key `GRPC_ARG_MAX_RECEIVE_MESSAGE_LENGTH`. -/
def GRPC_ARG_MAX_RECEIVE_MESSAGE_LENGTH : String := "max_receive_message_length"

/-- Channel-argument key `GRPC_ARG_SERVICE_CONFIG`. -/
def GRPC_ARG_SERVICE_CONFIG : String := "service_config"

/-- A byte stream; the filter only ever reads its `length` field. -/
structure grpc_byte_stream where
  length : Nat
deriving DecidableEq, Repr

/-- Type `grpc_error`: either `GRPC_ERROR_NONE` or an error carrying a message,
integer tags (from `grpc_error_set_int`) and child errors (from
`grpc_error_add_child`). Modelled from the spec: `error.c` is not among the
sources; the spec describes errors combined "as two causes of one failure". -/
inductive grpc_error where
  | none : grpc_error
  | err (message : String) (tags : List (Nat × Int)) (children : List grpc_error) : grpc_error

/-- Macro `GRPC_ERROR_CREATE(msg)`: a fresh error with no tags and no children.
Modelled from the spec: `error.c` is not among the sources. -/
def GRPC_ERROR_CREATE (message : String) : grpc_error :=
  .err message [] []

/-- Function `grpc_error_set_int(e, tag, v)`: record an integer tag on the error.
Modelled from the spec: `error.c` is not among the sources; the spec calls
this attaching an "invalid-argument-class status". -/
def grpc_error_set_int (e : grpc_error) (tag : Nat) (v : Int) : grpc_error :=
  match e with
  | .none => .none
  | .err m t cs => .err m ((tag, v) :: t) cs

/-- Function `grpc_error_add_child(e, child)`: attach `child` as one more cause of
`e`. Modelled from the spec: `error.c` is not among the sources; the spec
says the two errors become "two causes of one failure rather than discarding
either". The source only calls it with `e ≠ GRPC_ERROR_NONE`. -/
def grpc_error_add_child (e : grpc_error) (child : grpc_error) : grpc_error :=
  match e with
  | .none => child
  | .err m t cs => .err m t (cs ++ [child])

/-- A completion callback (`grpc_closure*`). `caller i` is a closure supplied
from above the filter; `filterRecv` is the per-call `recv_message_ready`
closure the filter itself owns (`&calld->recv_message_ready`). -/
inductive GrpcClosure where
  | caller (id : Nat) : GrpcClosure
  | filterRecv : GrpcClosure
deriving DecidableEq, Repr

/-- Struct `message_size_limits` (the per-method limit struct). -/
structure message_size_limits where
  max_send_size : Int
  max_recv_size : Int
deriving DecidableEq, Repr

/-- Function `message_size_limits_cmp`: lexicographic three-way comparison. -/
def message_size_limits_cmp (v1 v2 : message_size_limits) : Int :=
  if v1.max_send_size > v2.max_send_size then 1
  else if v1.max_send_size < v2.max_send_size then -1
  else if v1.max_recv_size > v2.max_recv_size then 1
  else if v1.max_recv_size < v2.max_recv_size then -1
  else 0

/-- A parsed `grpc_method_config`: the two optional `int32_t*` size fields
read by this filter (`NULL` pointer = `Option.none`). -/
structure grpc_method_config where
  max_request_message_bytes : Option Int
  max_response_message_bytes : Option Int
deriving DecidableEq, Repr

/-- Function `method_config_convert_value`: convert a method config to
`message_size_limits`, with `-1` for each absent field. -/
def method_config_convert_value (mc : grpc_method_config) : message_size_limits :=
  { max_send_size := mc.max_request_message_bytes.getD (-1),
    max_recv_size := mc.max_response_message_bytes.getD (-1) }

/-- A method-config table keyed by method path, as an association list. -/
abbrev grpc_method_config_table : Type := List (String × grpc_method_config)

/-- The converted per-method limit table (`grpc_mdstr_hash_table` holding
`message_size_limits` values). -/
abbrev method_limit_table : Type := List (String × message_size_limits)

/-- Function `grpc_method_config_table_convert`: rebuild the table, converting every
value with `method_config_convert_value`. Modelled from the spec:
`method_config.c` is not among the sources; the spec says the table maps each
method path to converted per-method limits, keys unchanged. -/
def grpc_method_config_table_convert (t : grpc_method_config_table) :
    method_limit_table :=
  t.map (fun kv => (kv.1, method_config_convert_value kv.2))

/-- Function `grpc_method_config_table_get`: exact-string-match lookup of a method
path. Modelled from the spec: `method_config.c` is not among the sources; the
spec says "Lookup is exact string match on method path; no normalization, no
wildcards". -/
def grpc_method_config_table_get (t : method_limit_table) (path : String) :
    Option message_size_limits :=
  (t.find? (fun kv => kv.1 == path)).map Prod.snd

/-- Struct `call_data`: the per-call state of the filter. -/
structure call_data where
  max_send_size : Int
  max_recv_size : Int
  /-- Saved `op->recv_message` slot pointer (a `grpc_byte_stream**`),
  identified by an abstract address. -/
  recv_message : Option Nat
  /-- Original `recv_message_ready` callback, invoked after our own. -/
  next_recv_message_ready : Option GrpcClosure
deriving DecidableEq, Repr

/-- Struct `channel_data`: the per-channel state of the filter. -/
structure channel_data where
  max_send_size : Int
  max_recv_size : Int
  method_limit_table : Option method_limit_table
deriving DecidableEq, Repr

/-- A transport stream op. Only the three fields the filter touches are
explicit; everything else (metadata batches, cancel slots, ...) is the
opaque `rest` field. `recv_message` is the slot pointer the transport will
fill, `recv_message_ready` the completion to invoke afterwards. -/
structure transport_stream_op (ρ : Type) where
  send_message : Option grpc_byte_stream
  recv_message : Option Nat
  recv_message_ready : Option GrpcClosure
  rest : ρ
deriving DecidableEq

/-- Observable effects of running a filter entry point: terminating the call
with a status and message (`grpc_call_element_send_close_with_message`),
forwarding an op to the next filter (`grpc_call_next_op`), or scheduling a
closure with an error (`grpc_exec_ctx_sched`). -/
inductive FilterAction (ρ : Type) where
  | send_close_with_message (status : Int) (message : String) : FilterAction ρ
  | next_op (op : transport_stream_op ρ) : FilterAction ρ
  | sched (c : Option GrpcClosure) (e : grpc_error) : FilterAction ρ

/-- The literal message built by `recv_message_ready`:
`"Received message larger than max (%u vs. %d)"`. -/
def recv_too_large_message (len : Nat) (limit : Int) : String :=
  "Received message larger than max (" ++ toString len ++ " vs. " ++
    toString limit ++ ")"

/-- The literal message built by `start_transport_stream_op`:
`"Sent message larger than max (%u vs. %d)"`. -/
def sent_too_large_message (len : Nat) (limit : Int) : String :=
  "Sent message larger than max (" ++ toString len ++ " vs. " ++
    toString limit ++ ")"

/-- Function `recv_message_ready`: the callback invoked when a message arrives.
Inputs: the call state, the content the transport left in the
`*calld->recv_message` slot (`Option.none` = `NULL`), and the transport's
`error`. Output: the closure scheduled (`calld->next_recv_message_ready`)
and the error it is scheduled with. The call state is not modified. -/
def recv_message_ready (calld : call_data) (recv_msg : Option grpc_byte_stream)
    (error : grpc_error) : Option GrpcClosure × grpc_error :=
  let error :=
    match recv_msg with
    | some m =>
      if 0 ≤ calld.max_recv_size ∧ (m.length : Int) > calld.max_recv_size then
        let message_string := recv_too_large_message m.length calld.max_recv_size
        let new_error :=
          grpc_error_set_int (GRPC_ERROR_CREATE message_string)
            GRPC_ERROR_INT_GRPC_STATUS GRPC_STATUS_INVALID_ARGUMENT
        match error with
        | .none => new_error
        | e => grpc_error_add_child e new_error
      else error
    | Option.none => error
  (calld.next_recv_message_ready, error)

/-- Function `start_transport_stream_op`: the send-size check, the receive-callback
injection, and the chain to the next filter. Returns the updated call state
and the emitted actions, in program order. -/
def start_transport_stream_op (calld : call_data) {ρ : Type}
    (op : transport_stream_op ρ) : call_data × List (FilterAction ρ) :=
  let send_actions : List (FilterAction ρ) :=
    match op.send_message with
    | some m =>
      if 0 ≤ calld.max_send_size ∧ (m.length : Int) > calld.max_send_size then
        [.send_close_with_message GRPC_STATUS_INVALID_ARGUMENT
          (sent_too_large_message m.length calld.max_send_size)]
      else []
    | Option.none => []
  let calld :=
    match op.recv_message_ready with
    | some c =>
      { calld with next_recv_message_ready := some c,
                   recv_message := op.recv_message }
    | Option.none => calld
  let op :=
    match op.recv_message_ready with
    | some _ => { op with recv_message_ready := some .filterRecv }
    | Option.none => op
  (calld, send_actions ++ [.next_op op])

/-- Function `init_call_elem`: build the per-call state by copying the channel caps
and tightening each direction with the per-method limits found for
`args->path`, when any. Cannot fail (always returns `GRPC_ERROR_NONE`). -/
def init_call_elem (chand : channel_data) (path : String) : call_data :=
  let calld : call_data :=
    { max_send_size := chand.max_send_size,
      max_recv_size := chand.max_recv_size,
      recv_message := Option.none,
      next_recv_message_ready := Option.none }
  match chand.method_limit_table with
  | Option.none => calld
  | some table =>
    match grpc_method_config_table_get table path with
    | Option.none => calld
    | some limits =>
      let calld :=
        if 0 ≤ limits.max_send_size ∧
            (limits.max_send_size < calld.max_send_size ∨
             calld.max_send_size < 0) then
          { calld with max_send_size := limits.max_send_size }
        else calld
      if 0 ≤ limits.max_recv_size ∧
          (limits.max_recv_size < calld.max_recv_size ∨
           calld.max_recv_size < 0) then
        { calld with max_recv_size := limits.max_recv_size }
      else calld

/-- Function `destroy_call_elem`: does nothing. -/
def destroy_call_elem (_calld : call_data) : Unit := ()

/-- A channel-argument value: `GRPC_ARG_INTEGER`, `GRPC_ARG_POINTER` (only
ever holding a method-config table here), or `GRPC_ARG_STRING`. -/
inductive arg_value where
  | integer (i : Int) : arg_value
  | pointer (t : grpc_method_config_table) : arg_value
  | string (s : String) : arg_value
deriving DecidableEq, Repr

/-- Flattened channel arguments: an ordered list of key/value pairs. -/
abbrev channel_args : Type := List (String × arg_value)

/-- Struct `grpc_integer_options` for `grpc_channel_arg_get_integer`. -/
structure grpc_integer_options where
  default_value : Int
  min_value : Int
  max_value : Int

/-- Function `grpc_channel_arg_get_integer`. Modelled from the spec: `channel_args.c`
is not among the sources; the spec says each supplied integer is "clamped to
[0, INT_MAX]" (the bounds come in `options`); a non-integer-typed value
yields the default. -/
def grpc_channel_arg_get_integer (v : arg_value)
    (options : grpc_integer_options) : Int :=
  match v with
  | .integer i => max options.min_value (min options.max_value i)
  | _ => options.default_value

/-- The argument-scanning loop of `init_channel_elem`: walk the argument list
in order, overwriting the running send/recv caps at each occurrence of the
corresponding key. -/
def scan_size_args : channel_args → Int → Int → Int × Int
  | [], ms, mr => (ms, mr)
  | (k, v) :: rest, ms, mr =>
    let ms :=
      if k == GRPC_ARG_MAX_SEND_MESSAGE_LENGTH then
        grpc_channel_arg_get_integer v
          ⟨DEFAULT_MAX_SEND_MESSAGE_LENGTH, 0, INT_MAX⟩
      else ms
    let mr :=
      if k == GRPC_ARG_MAX_RECEIVE_MESSAGE_LENGTH then
        grpc_channel_arg_get_integer v
          ⟨DEFAULT_MAX_RECV_MESSAGE_LENGTH, 0, INT_MAX⟩
      else mr
    scan_size_args rest ms mr

/-- Function `grpc_channel_args_find`: first argument with the given key. Modelled
from the spec: `channel_args.c` is not among the sources. -/
def grpc_channel_args_find (args : channel_args) (key : String) :
    Option (String × arg_value) :=
  args.find? (fun kv => kv.1 == key)

/-- How channel construction can fail: the `GPR_ASSERT(!args->is_last)`
configuration check, or the `GPR_ASSERT(channel_arg->type ==
GRPC_ARG_POINTER)` on the service-config argument. -/
inductive init_channel_error where
  | isLastAssertFailed : init_channel_error
  | serviceConfigTypeAssertFailed : init_channel_error
deriving DecidableEq, Repr

/-- Function `init_channel_elem`: assert the filter is not last, read the two size
keys (defaults `-1` / 4 MiB), then adopt the service-config table if one is
supplied. `GPR_ASSERT` aborts are modelled as `Except.error`. -/
def init_channel_elem (is_last : Bool) (args : channel_args) :
    Except init_channel_error channel_data :=
  if is_last then .error .isLastAssertFailed
  else
    let caps := scan_size_args args DEFAULT_MAX_SEND_MESSAGE_LENGTH
      DEFAULT_MAX_RECV_MESSAGE_LENGTH
    match grpc_channel_args_find args GRPC_ARG_SERVICE_CONFIG with
    | Option.none =>
      .ok { max_send_size := caps.1, max_recv_size := caps.2,
            method_limit_table := Option.none }
    | some (_, .pointer t) =>
      .ok { max_send_size := caps.1, max_recv_size := caps.2,
            method_limit_table := some (grpc_method_config_table_convert t) }
    | some _ => .error .serviceConfigTypeAssertFailed

/-- Decidable equality for channel-construction results. -/
instance : DecidableEq (Except init_channel_error channel_data) := fun a b =>
  match a, b with
  | .ok x, .ok y =>
    if h : x = y then .isTrue (by rw [h])
    else .isFalse (fun hc => by cases hc; exact h rfl)
  | .error x, .error y =>
    if h : x = y then .isTrue (by rw [h])
    else .isFalse (fun hc => by cases hc; exact h rfl)
  | .ok x, .error y => .isFalse (fun hc => by cases hc)
  | .error x, .ok y => .isFalse (fun hc => by cases hc)

/-- The error synthesized by `recv_message_ready` for an over-limit inbound
message: invalid-argument status, literal message, no children. -/
def recv_size_error (len : Nat) (limit : Int) : grpc_error :=
  grpc_error_set_int (GRPC_ERROR_CREATE (recv_too_large_message len limit))
    GRPC_ERROR_INT_GRPC_STATUS GRPC_STATUS_INVALID_ARGUMENT

/-- Spec-side `SizeCap`: reading of a C cap field. A negative `int` encodes
an absent ("unlimited") cap; a non-negative one is the byte ceiling. -/
def capOfInt (i : Int) : Option Nat :=
  if i < 0 then Option.none else some i.toNat

/-- The spec's combination law, written from the spec's words:
`tighter(a,b) = min ignoring absent, absent if both absent`. This definition
follows the specification text, to be compared with `init_call_elem`. -/
def tighterSpec : Option Nat → Option Nat → Option Nat
  | Option.none, b => b
  | a, Option.none => a
  | some a, some b => some (min a b)

/-- The per-method limits `init_call_elem` would find for a path: the table
lookup, or `Option.none` when the channel has no table or no entry. -/
def method_override (chand : channel_data) (path : String) :
    Option message_size_limits :=
  match chand.method_limit_table with
  | Option.none => Option.none
  | some t => grpc_method_config_table_get t path

/-- The call-termination actions in an action list. -/
def send_closes {ρ : Type} : List (FilterAction ρ) → List (Int × String)
  | [] => []
  | .send_close_with_message s m :: rest => (s, m) :: send_closes rest
  | .next_op _ :: rest => send_closes rest
  | .sched _ _ :: rest => send_closes rest

/-- The ops forwarded to the next filter in an action list. -/
def forwarded_ops {ρ : Type} : List (FilterAction ρ) →
    List (transport_stream_op ρ)
  | [] => []
  | .next_op op :: rest => op :: forwarded_ops rest
  | .send_close_with_message _ _ :: rest => forwarded_ops rest
  | .sched _ _ :: rest => forwarded_ops rest

/-- The closures scheduled (`grpc_exec_ctx_sched`) in an action list. -/
def sched_closures {ρ : Type} : List (FilterAction ρ) → List (Option GrpcClosure)
  | [] => []
  | .sched c _ :: rest => c :: sched_closures rest
  | .send_close_with_message _ _ :: rest => sched_closures rest
  | .next_op _ :: rest => sched_closures rest

/-- One event in the life of a call, as seen by this filter: an op submitted
from above (with its optional outgoing message, receive slot and
receive-ready continuation), or the transport completing a pending receive
by invoking the filter's injected closure with the slot content and an
error. -/
inductive CallEvent where
  | op (send_msg : Option grpc_byte_stream) (recv_slot : Option Nat)
      (recv_ready : Option GrpcClosure) : CallEvent
  | transport_complete (msg : Option grpc_byte_stream) (e : grpc_error) :
      CallEvent

/-- Run one event against the per-call filter state. An `op` event goes
through `start_transport_stream_op`; a completion runs `recv_message_ready`
(which schedules the saved continuation and leaves the state untouched). -/
def step_call (calld : call_data) : CallEvent → call_data × List (FilterAction Unit)
  | .op s r c => start_transport_stream_op calld ⟨s, r, c, ()⟩
  | .transport_complete m e =>
    let res := recv_message_ready calld m e
    (calld, [.sched res.1 res.2])

/-- Run a whole event trace, collecting the emitted actions in order. -/
def run_call (calld : call_data) : List CallEvent → call_data × List (FilterAction Unit)
  | [] => (calld, [])
  | e :: rest =>
    let s := step_call calld e
    let r := run_call s.1 rest
    (r.1, s.2 ++ r.2)

/-- The receive continuations registered along a trace, in order. -/
def registered_closures : List CallEvent → List GrpcClosure
  | [] => []
  | .op _ _ (some c) :: rest => c :: registered_closures rest
  | .op _ _ Option.none :: rest => registered_closures rest
  | .transport_complete _ _ :: rest => registered_closures rest

/-- The environment discipline of the pipeline contract: at most one receive
outstanding per call at a time, and every registered receive gets exactly one
transport completion before the call is destroyed. The `Bool` index records
whether a receive is currently outstanding; a full call trace satisfies
`ReceiveDiscipline false trace` (it starts with nothing pending and must end
with nothing pending). -/
inductive ReceiveDiscipline : Bool → List CallEvent → Prop
  | nil : ReceiveDiscipline false []
  | plain {b : Bool} {rest : List CallEvent} (s : Option grpc_byte_stream)
      (r : Option Nat) : ReceiveDiscipline b rest →
      ReceiveDiscipline b (.op s r Option.none :: rest)
  | reg {rest : List CallEvent} (s : Option grpc_byte_stream) (r : Option Nat)
      (c : GrpcClosure) : ReceiveDiscipline true rest →
      ReceiveDiscipline false (.op s r (some c) :: rest)
  | complete {rest : List CallEvent} (m : Option grpc_byte_stream)
      (e : grpc_error) : ReceiveDiscipline false rest →
      ReceiveDiscipline true (.transport_complete m e :: rest)

/-- Returns `true` when the argument value is `GRPC_ARG_POINTER`-typed. -/
def arg_value.is_pointer : arg_value → Bool
  | .pointer _ => true
  | .integer _ => false
  | .string _ => false

/-- Returns `true` unless the first `service_config` argument (the one
`grpc_channel_args_find` returns) carries a non-pointer value, which would
trip `GPR_ASSERT(channel_arg->type == GRPC_ARG_POINTER)`. -/
def service_config_well_typed (args : channel_args) : Bool :=
  match grpc_channel_args_find args GRPC_ARG_SERVICE_CONFIG with
  | some kv => kv.2.is_pointer
  | Option.none => true

/-- No argument in the list bears the given key. -/
def no_key (args : channel_args) (key : String) : Prop :=
  ∀ kv ∈ args, kv.1 ≠ key

/-- The value of the last occurrence of `key` in the argument list. -/
def last_arg_val (args : channel_args) (key : String) : Option arg_value :=
  match args with
  | [] => Option.none
  | (k, v) :: rest =>
    match last_arg_val rest key with
    | some w => some w
    | Option.none => if k == key then some v else Option.none

/-! ## Helper lemmas -/

/-- Extraction of call-close actions distributes over append. -/
theorem send_closes_append {ρ : Type} (a b : List (FilterAction ρ)) :
    send_closes (a ++ b) = send_closes a ++ send_closes b := by
  induction a with
  | nil => rfl
  | cons x rest ih => cases x <;> simp [send_closes, ih]

/-- Extraction of forwarded ops distributes over append. -/
theorem forwarded_ops_append {ρ : Type} (a b : List (FilterAction ρ)) :
    forwarded_ops (a ++ b) = forwarded_ops a ++ forwarded_ops b := by
  induction a with
  | nil => rfl
  | cons x rest ih => cases x <;> simp [forwarded_ops, ih]

/-- Extraction of scheduled closures distributes over append. -/
theorem sched_closures_append {ρ : Type} (a b : List (FilterAction ρ)) :
    sched_closures (a ++ b) = sched_closures a ++ sched_closures b := by
  induction a with
  | nil => rfl
  | cons x rest ih => cases x <;> simp [sched_closures, ih]

/-- An op carrying no receive registration leaves the call state unchanged. -/
theorem start_state_of_no_recv {ρ : Type} (calld : call_data)
    (op : transport_stream_op ρ) (h : op.recv_message_ready = Option.none) :
    (start_transport_stream_op calld op).1 = calld := by
  simp [start_transport_stream_op, h]

/-- An op registering a receive continuation saves it (and the message slot)
in the call state, unconditionally. -/
theorem start_state_of_recv {ρ : Type} (calld : call_data)
    (op : transport_stream_op ρ) (c : GrpcClosure)
    (h : op.recv_message_ready = some c) :
    (start_transport_stream_op calld op).1 =
      { calld with next_recv_message_ready := some c,
                   recv_message := op.recv_message } := by
  simp [start_transport_stream_op, h]

/-- The op forwarded to the next filter: the submitted op, with the filter's
own closure substituted in `recv_message_ready` when a receive was
registered. -/
theorem start_forwarded {ρ : Type} (calld : call_data)
    (op : transport_stream_op ρ) :
    forwarded_ops (start_transport_stream_op calld op).2 =
      [match op.recv_message_ready with
       | some _ => { op with recv_message_ready := some .filterRecv }
       | Option.none => op] := by
  rcases op with ⟨sm, rm, rr, rest⟩
  rcases sm with _ | m <;> rcases rr with _ | c <;>
    simp [start_transport_stream_op, forwarded_ops_append, forwarded_ops] <;>
    split_ifs <;> simp [forwarded_ops]

/-- `start_transport_stream_op` never schedules a closure directly. -/
theorem start_scheds {ρ : Type} (calld : call_data)
    (op : transport_stream_op ρ) :
    sched_closures (start_transport_stream_op calld op).2 = [] := by
  rcases op with ⟨sm, rm, rr, rest⟩
  rcases sm with _ | m <;> rcases rr with _ | c <;>
    simp [start_transport_stream_op, sched_closures_append, sched_closures] <;>
    split_ifs <;> simp [sched_closures]

/-- Attaching the synthesized receive-size error to any error yields a
different error value: the failure is never silently identical. -/
theorem grpc_error_add_child_recv_size_ne (e : grpc_error) (len : Nat)
    (limit : Int) :
    grpc_error_add_child e (recv_size_error len limit) ≠ e := by
  cases e with
  | none =>
    simp [grpc_error_add_child, recv_size_error, GRPC_ERROR_CREATE,
      grpc_error_set_int]
  | err m t cs =>
    simp only [grpc_error_add_child]
    intro h
    injection h with h1 h2 h3
    have hlen := congrArg List.length h3
    simp only [List.length_append, List.length_cons, List.length_nil] at hlen
    omega

/-- On an over-limit message, `recv_message_ready` delivers the incoming
error with the synthesized size error attached as one more cause (when the
incoming error is `GRPC_ERROR_NONE`, the synthesized error alone). -/
theorem recv_message_ready_violation (calld : call_data)
    (m : grpc_byte_stream) (error : grpc_error)
    (h0 : 0 ≤ calld.max_recv_size)
    (hl : (m.length : Int) > calld.max_recv_size) :
    (recv_message_ready calld (some m) error).2 =
      grpc_error_add_child error
        (recv_size_error m.length calld.max_recv_size) := by
  cases error <;>
    simp [recv_message_ready, h0, hl, grpc_error_add_child, recv_size_error,
      GRPC_ERROR_CREATE, grpc_error_set_int]

/-- With no over-limit message, `recv_message_ready` passes the transport's
error (or success) through untouched. -/
theorem recv_message_ready_pass (calld : call_data)
    (recv_msg : Option grpc_byte_stream) (error : grpc_error)
    (h : ∀ m, recv_msg = some m →
      ¬(0 ≤ calld.max_recv_size ∧ (m.length : Int) > calld.max_recv_size)) :
    (recv_message_ready calld recv_msg error).2 = error := by
  rcases recv_msg with _ | m
  · rfl
  · have hm := h m rfl
    simp [recv_message_ready, hm]

/-- Combination with an absent override keeps the base cap. -/
theorem tighterSpec_none_right (a : Option Nat) :
    tighterSpec a Option.none = a := by
  cases a <;> rfl

/-- Scalar form of the source's per-direction tightening conditional versus
the spec's `tighter` combination. `d` is the channel default, `o` the
per-method override; negative encodes absent. -/
theorem tighter_scalar (d o : Int) :
    capOfInt (if 0 ≤ o ∧ (o < d ∨ d < 0) then o else d) =
      tighterSpec (capOfInt d) (capOfInt o) := by
  split_ifs with hc <;>
    by_cases hd : d < 0 <;> by_cases ho : o < 0 <;>
      simp [capOfInt, hd, ho, tighterSpec] <;> omega

/-- Scalar form: the merged cap never exceeds a set channel default. -/
theorem merge_le_scalar (d o : Int) (hd : 0 ≤ d) :
    (if 0 ≤ o ∧ (o < d ∨ d < 0) then o else d) ≤ d := by
  split_ifs with hc <;> omega

/-- The send cap produced by the channel-argument scan is determined by the
last occurrence of the send key. -/
theorem scan_size_args_fst (args : channel_args) (ms mr : Int) :
    (scan_size_args args ms mr).1 =
      (match last_arg_val args GRPC_ARG_MAX_SEND_MESSAGE_LENGTH with
       | Option.none => ms
       | some v => grpc_channel_arg_get_integer v
           ⟨DEFAULT_MAX_SEND_MESSAGE_LENGTH, 0, INT_MAX⟩) := by
  induction args generalizing ms mr with
  | nil => rfl
  | cons kv rest ih =>
    rcases kv with ⟨k, v⟩
    simp only [scan_size_args, last_arg_val]
    rw [ih]
    rcases hl : last_arg_val rest GRPC_ARG_MAX_SEND_MESSAGE_LENGTH with _ | w
    · by_cases hk : (k == GRPC_ARG_MAX_SEND_MESSAGE_LENGTH) = true <;> simp [hk]
    · simp

/-- The recv cap produced by the channel-argument scan is determined by the
last occurrence of the recv key. -/
theorem scan_size_args_snd (args : channel_args) (ms mr : Int) :
    (scan_size_args args ms mr).2 =
      (match last_arg_val args GRPC_ARG_MAX_RECEIVE_MESSAGE_LENGTH with
       | Option.none => mr
       | some v => grpc_channel_arg_get_integer v
           ⟨DEFAULT_MAX_RECV_MESSAGE_LENGTH, 0, INT_MAX⟩) := by
  induction args generalizing ms mr with
  | nil => rfl
  | cons kv rest ih =>
    rcases kv with ⟨k, v⟩
    simp only [scan_size_args, last_arg_val]
    rw [ih]
    rcases hl : last_arg_val rest GRPC_ARG_MAX_RECEIVE_MESSAGE_LENGTH with _ | w
    · by_cases hk : (k == GRPC_ARG_MAX_RECEIVE_MESSAGE_LENGTH) = true <;> simp [hk]
    · simp

/-- A key that occurs nowhere has no last occurrence. -/
theorem last_arg_val_of_no_key (args : channel_args) (key : String)
    (h : no_key args key) : last_arg_val args key = Option.none := by
  induction args with
  | nil => rfl
  | cons kv rest ih =>
    rcases kv with ⟨k, v⟩
    have h1 : k ≠ key := h (k, v) (by simp)
    have h2 : no_key rest key := fun x hx => h x (by simp [hx])
    simp [last_arg_val, ih h2, h1]

/-- Whenever channel construction succeeds, the resulting caps are the ones
computed by the argument scan. -/
theorem init_channel_elem_ok_caps (is_last : Bool) (args : channel_args)
    (st : channel_data) (h : init_channel_elem is_last args = .ok st) :
    st.max_send_size = (scan_size_args args DEFAULT_MAX_SEND_MESSAGE_LENGTH
      DEFAULT_MAX_RECV_MESSAGE_LENGTH).1 ∧
    st.max_recv_size = (scan_size_args args DEFAULT_MAX_SEND_MESSAGE_LENGTH
      DEFAULT_MAX_RECV_MESSAGE_LENGTH).2 := by
  cases is_last with
  | true => simp [init_channel_elem] at h
  | false =>
    simp only [init_channel_elem, Bool.false_eq_true, if_false] at h
    rcases hf : grpc_channel_args_find args GRPC_ARG_SERVICE_CONFIG with _ | ⟨k, v⟩
    · rw [hf] at h
      cases h
      exact ⟨rfl, rfl⟩
    · rw [hf] at h
      rcases v with i | t | s
      · simp at h
      · cases h
        exact ⟨rfl, rfl⟩
      · simp at h

/-- The caps produced by `init_call_elem`, as a direct conditional on the
channel defaults and the per-method override. -/
theorem init_call_elem_caps (chand : channel_data) (path : String) :
    (init_call_elem chand path).max_send_size =
      (match method_override chand path with
       | Option.none => chand.max_send_size
       | some limits =>
         if 0 ≤ limits.max_send_size ∧
             (limits.max_send_size < chand.max_send_size ∨
              chand.max_send_size < 0) then
           limits.max_send_size
         else chand.max_send_size) ∧
    (init_call_elem chand path).max_recv_size =
      (match method_override chand path with
       | Option.none => chand.max_recv_size
       | some limits =>
         if 0 ≤ limits.max_recv_size ∧
             (limits.max_recv_size < chand.max_recv_size ∨
              chand.max_recv_size < 0) then
           limits.max_recv_size
         else chand.max_recv_size) := by
  rcases htab : chand.method_limit_table with _ | table
  · simp [init_call_elem, method_override, htab]
  · rcases hget : grpc_method_config_table_get table path with _ | limits
    · simp [init_call_elem, method_override, htab, hget]
    · constructor
      · simp only [init_call_elem, method_override, htab, hget]
        split_ifs <;> simp_all
      · simp only [init_call_elem, method_override, htab, hget]
        split_ifs <;> simp_all

/-- Running a disciplined trace schedules, in order: the continuation pending
on entry (when one is outstanding), then every continuation registered along
the trace, each exactly once. -/
theorem run_call_sched {b : Bool} {trace : List CallEvent}
    (h : ReceiveDiscipline b trace) :
    ∀ calld : call_data,
      sched_closures (run_call calld trace).2 =
        (if b then [calld.next_recv_message_ready] else []) ++
          (registered_closures trace).map some := by
  induction h with
  | nil => intro calld; rfl
  | plain s r hrest ih =>
    intro calld
    simp only [run_call, step_call, sched_closures_append, registered_closures]
    rw [start_scheds, start_state_of_no_recv calld _ rfl, ih calld]
    simp
  | reg s r c hrest ih =>
    intro calld
    simp only [run_call, step_call, sched_closures_append, registered_closures]
    rw [start_scheds, start_state_of_recv calld _ c rfl, ih _]
    simp
  | complete m e hrest ih =>
    intro calld
    simp only [run_call, step_call, sched_closures_append, registered_closures]
    rw [ih calld]
    simp [sched_closures, recv_message_ready]

/-! ## Claim theorems -/

/-- C1: a send is rejected — the call is terminated with invalid-argument
status and the literal message `Sent message larger than max (<actual> vs.
<limit>)` — if and only if the call's `max_send_size` cap is set
(non-negative) and the message length exceeds it; symmetrically, the
receive path delivers an altered (rejecting) error, carrying the literal
`Received message larger than max (...)` error, iff a message was produced,
`max_recv_size` is set and the length exceeds it. -/
theorem c1_size_rejection_iff (calld : call_data) {ρ : Type}
    (op : transport_stream_op ρ) (recv_msg : Option grpc_byte_stream)
    (error : grpc_error) :
    (send_closes (start_transport_stream_op calld op).2 ≠ [] ↔
      ∃ m, op.send_message = some m ∧ 0 ≤ calld.max_send_size ∧
        (m.length : Int) > calld.max_send_size)
    ∧ (∀ m, op.send_message = some m → 0 ≤ calld.max_send_size →
        (m.length : Int) > calld.max_send_size →
        send_closes (start_transport_stream_op calld op).2 =
          [(GRPC_STATUS_INVALID_ARGUMENT,
            sent_too_large_message m.length calld.max_send_size)])
    ∧ ((recv_message_ready calld recv_msg error).2 ≠ error ↔
      ∃ m, recv_msg = some m ∧ 0 ≤ calld.max_recv_size ∧
        (m.length : Int) > calld.max_recv_size)
    ∧ (∀ m, recv_msg = some m → 0 ≤ calld.max_recv_size →
        (m.length : Int) > calld.max_recv_size →
        (recv_message_ready calld recv_msg error).2 =
          grpc_error_add_child error
            (recv_size_error m.length calld.max_recv_size)) := by
  refine ⟨?_, ?_, ?_, ?_⟩
  · rcases hs : op.send_message with _ | m
    · simp [start_transport_stream_op, hs, send_closes_append, send_closes]
    · by_cases hc : 0 ≤ calld.max_send_size ∧
          (m.length : Int) > calld.max_send_size
      · simp [start_transport_stream_op, hs, hc, send_closes_append,
          send_closes]
      · simp [start_transport_stream_op, hs, hc, send_closes_append,
          send_closes]
  · intro m hm h0 hl
    simp [start_transport_stream_op, hm, h0, hl, send_closes_append,
      send_closes]
  · constructor
    · intro hne
      by_contra hno
      exact hne (recv_message_ready_pass calld recv_msg error
        (fun m hm hc => hno ⟨m, hm, hc.1, hc.2⟩))
    · rintro ⟨m, hm, h0, hl⟩
      subst hm
      rw [recv_message_ready_violation calld m error h0 hl]
      exact grpc_error_add_child_recv_size_ne error m.length calld.max_recv_size
  · intro m hm h0 hl
    subst hm
    exact recv_message_ready_violation calld m error h0 hl

/-- Witness for C1: cap 10, 20-byte send is closed with the literal message;
cap 5, 9-byte receive yields the synthesized error. -/
theorem c1_size_rejection_iff_witness :
    send_closes (start_transport_stream_op
      (⟨10, 5, Option.none, Option.none⟩ : call_data)
      (⟨some ⟨20⟩, Option.none, Option.none, ()⟩ : transport_stream_op Unit)).2 =
      [(GRPC_STATUS_INVALID_ARGUMENT, sent_too_large_message 20 10)] ∧
    (recv_message_ready (⟨10, 5, Option.none, Option.none⟩ : call_data)
      (some ⟨9⟩) .none).2 = grpc_error_add_child .none (recv_size_error 9 5) := by
  have h := c1_size_rejection_iff (⟨10, 5, Option.none, Option.none⟩ : call_data)
    (⟨some ⟨20⟩, Option.none, Option.none, ()⟩ : transport_stream_op Unit)
    (some ⟨9⟩) .none
  exact ⟨h.2.1 ⟨20⟩ rfl (by decide) (by decide),
         h.2.2.2 ⟨9⟩ rfl (by decide) (by decide)⟩

/-- C2: the effective per-direction cap computed at call start equals the
spec's `tighter` of the channel default and the per-method override; with no
table or no entry the channel defaults are kept verbatim; a set channel
default is never enlarged. -/
theorem c2_effective_limit_merge (chand : channel_data) (path : String) :
    (capOfInt (init_call_elem chand path).max_send_size =
      tighterSpec (capOfInt chand.max_send_size)
        (match method_override chand path with
         | Option.none => Option.none
         | some l => capOfInt l.max_send_size))
    ∧ (capOfInt (init_call_elem chand path).max_recv_size =
      tighterSpec (capOfInt chand.max_recv_size)
        (match method_override chand path with
         | Option.none => Option.none
         | some l => capOfInt l.max_recv_size))
    ∧ (method_override chand path = Option.none →
        (init_call_elem chand path).max_send_size = chand.max_send_size ∧
        (init_call_elem chand path).max_recv_size = chand.max_recv_size)
    ∧ (0 ≤ chand.max_send_size →
        (init_call_elem chand path).max_send_size ≤ chand.max_send_size)
    ∧ (0 ≤ chand.max_recv_size →
        (init_call_elem chand path).max_recv_size ≤ chand.max_recv_size) := by
  obtain ⟨hs, hr⟩ := init_call_elem_caps chand path
  rcases ho : method_override chand path with _ | limits
  · simp only [ho] at hs hr
    refine ⟨?_, ?_, fun _ => ⟨hs, hr⟩, fun _ => hs.le, fun _ => hr.le⟩
    · rw [hs]
      simp [tighterSpec_none_right]
    · rw [hr]
      simp [tighterSpec_none_right]
  · simp only [ho] at hs hr
    refine ⟨?_, ?_, ?_, ?_, ?_⟩
    · rw [hs]
      exact tighter_scalar chand.max_send_size limits.max_send_size
    · rw [hr]
      exact tighter_scalar chand.max_recv_size limits.max_recv_size
    · intro hcontra
      exact Option.noConfusion hcontra
    · intro h0
      rw [hs]
      exact merge_le_scalar chand.max_send_size limits.max_send_size h0
    · intro h0
      rw [hr]
      exact merge_le_scalar chand.max_recv_size limits.max_recv_size h0

/-- Witness for C2: with no entry for the path, the channel caps are kept. -/
theorem c2_effective_limit_merge_witness :
    (init_call_elem (⟨10, -1, some [("p", ⟨5, 7⟩)]⟩ : channel_data)
      "q").max_send_size = 10 ∧
    (init_call_elem (⟨10, -1, some [("p", ⟨5, 7⟩)]⟩ : channel_data)
      "q").max_recv_size = -1 := by
  have h := (c2_effective_limit_merge
    (⟨10, -1, some [("p", ⟨5, 7⟩)]⟩ : channel_data) "q").2.2.1 (by decide)
  exact h

/-- C3: the substituted receive continuation always hands off to the saved
original continuation; on an over-limit message it synthesizes the
invalid-argument error with the literal message, delivering it alone when
the transport reported no error, and attached as a second cause (transport
error message, tags and previous causes all retained) when it did; with no
violation the transport's error or success is passed through untouched. -/
theorem c3_recv_continuation_and_errors (calld : call_data)
    (recv_msg : Option grpc_byte_stream) (error : grpc_error) :
    (recv_message_ready calld recv_msg error).1 = calld.next_recv_message_ready
    ∧ (∀ len limit, recv_size_error len limit =
        .err (recv_too_large_message len limit)
          [(GRPC_ERROR_INT_GRPC_STATUS, GRPC_STATUS_INVALID_ARGUMENT)] [])
    ∧ (∀ m, recv_msg = some m → 0 ≤ calld.max_recv_size →
        (m.length : Int) > calld.max_recv_size →
        (error = .none →
          (recv_message_ready calld recv_msg error).2 =
            recv_size_error m.length calld.max_recv_size)
        ∧ (∀ msg tags children, error = .err msg tags children →
          (recv_message_ready calld recv_msg error).2 =
            .err msg tags
              (children ++ [recv_size_error m.length calld.max_recv_size])))
    ∧ ((∀ m, recv_msg = some m →
          ¬(0 ≤ calld.max_recv_size ∧
            (m.length : Int) > calld.max_recv_size)) →
        (recv_message_ready calld recv_msg error).2 = error) := by
  refine ⟨rfl, fun len limit => rfl, ?_,
    recv_message_ready_pass calld recv_msg error⟩
  intro m hm h0 hl
  subst hm
  constructor
  · intro he
    subst he
    rw [recv_message_ready_violation calld m .none h0 hl]
    rfl
  · intro msg tags children he
    subst he
    rw [recv_message_ready_violation calld m _ h0 hl]
    rfl

/-- Witness for C3: a 9-byte message over a 5-byte cap, with a transport
error already present: both errors are retained, and the saved original
continuation is the one handed the result. -/
theorem c3_recv_continuation_and_errors_witness :
    (recv_message_ready (⟨-1, 5, Option.none, some (.caller 4)⟩ : call_data)
      (some ⟨9⟩) (.err "transport failure" [] [])).2 =
      .err "transport failure" [] [recv_size_error 9 5] ∧
    (recv_message_ready (⟨-1, 5, Option.none, some (.caller 4)⟩ : call_data)
      (some ⟨9⟩) (.err "transport failure" [] [])).1 = some (.caller 4) := by
  have h := c3_recv_continuation_and_errors
    (⟨-1, 5, Option.none, some (.caller 4)⟩ : call_data)
    (some ⟨9⟩) (.err "transport failure" [] [])
  refine ⟨?_, h.1⟩
  have h2 := (h.2.2.1 ⟨9⟩ rfl (by decide) (by decide)).2 "transport failure"
    [] [] rfl
  simpa using h2

/-- C4 counterexample: the claim says `pending_receive` is "cleared
immediately upon invocation", but after a registered receive completes (and
its continuation has been scheduled) the saved slot still holds the caller's
closure — `recv_message_ready` never writes `next_recv_message_ready`. -/
theorem c4_pending_not_cleared_counterexample :
    (run_call (⟨-1, -1, Option.none, Option.none⟩ : call_data)
      [.op Option.none Option.none (some (.caller 1)),
       .transport_complete Option.none .none]).1.next_recv_message_ready =
      some (.caller 1) := rfl

/-- C4 (amended): starting from call creation, under the pipeline discipline
(at most one receive outstanding, exactly one completion per registration,
all completions delivered before the call is destroyed), the saved original
continuation is scheduled exactly once per registered receive, in order —
across all outcomes, since `recv_message_ready` schedules it
unconditionally. The slot is not cleared on invocation; it is only
overwritten by the next registration. -/
theorem c4_exactly_once_delivery (chand : channel_data) (path : String)
    (trace : List CallEvent) (h : ReceiveDiscipline false trace) :
    sched_closures (run_call (init_call_elem chand path) trace).2 =
      (registered_closures trace).map some := by
  simpa using run_call_sched h (init_call_elem chand path)

/-- Witness for C4: register one receive, complete it; exactly one delivery
to the registered continuation. -/
theorem c4_exactly_once_delivery_witness :
    sched_closures (run_call (init_call_elem ⟨-1, 5, Option.none⟩ "/svc/M")
      [.op Option.none (some 0) (some (.caller 7)),
       .transport_complete Option.none .none]).2 = [some (.caller 7)] := by
  have h := c4_exactly_once_delivery ⟨-1, 5, Option.none⟩ "/svc/M"
    [.op Option.none (some 0) (some (.caller 7)),
     .transport_complete Option.none .none]
    (ReceiveDiscipline.reg Option.none (some 0) (.caller 7)
      (ReceiveDiscipline.complete Option.none .none ReceiveDiscipline.nil))
  simpa [registered_closures] using h

/-- C5 counterexample: a 20-byte send against a 10-byte cap is rejected (the
call-terminating action is emitted), and yet the very same operation is
still forwarded to the next filter — `start_transport_stream_op` falls
through to `grpc_call_next_op` unconditionally. -/
theorem c5_rejected_still_forwarded_counterexample :
    send_closes (start_transport_stream_op
      (⟨10, -1, Option.none, Option.none⟩ : call_data)
      (⟨some ⟨20⟩, Option.none, Option.none, ()⟩ : transport_stream_op Unit)).2 =
      [(GRPC_STATUS_INVALID_ARGUMENT, sent_too_large_message 20 10)] ∧
    forwarded_ops (start_transport_stream_op
      (⟨10, -1, Option.none, Option.none⟩ : call_data)
      (⟨some ⟨20⟩, Option.none, Option.none, ()⟩ : transport_stream_op Unit)).2 =
      [⟨some ⟨20⟩, Option.none, Option.none, ()⟩] :=
  ⟨rfl, rfl⟩

/-- C5 (amended): every operation — rejected or not — is forwarded to the
next stage exactly once; an over-limit send merely adds the prior
call-terminating action; an operation within the limit that registers no
receive continuation is forwarded unchanged as the only action. -/
theorem c5_forward_behavior (calld : call_data) {ρ : Type}
    (op : transport_stream_op ρ) :
    (∃ fwd, forwarded_ops (start_transport_stream_op calld op).2 = [fwd])
    ∧ (send_closes (start_transport_stream_op calld op).2 = [] →
        op.recv_message_ready = Option.none →
        (start_transport_stream_op calld op).2 = [.next_op op]) := by
  constructor
  · exact ⟨_, start_forwarded calld op⟩
  · intro hsc hrr
    rcases hs : op.send_message with _ | m
    · simp [start_transport_stream_op, hs, hrr]
    · by_cases hc : 0 ≤ calld.max_send_size ∧
          (m.length : Int) > calld.max_send_size
      · exfalso
        simp [start_transport_stream_op, hs, hc, send_closes_append,
          send_closes] at hsc
      · simp [start_transport_stream_op, hs, hc, hrr]

/-- Witness for C5 (amended): a 5-byte send under a 10-byte cap is forwarded
unchanged as the only action. -/
theorem c5_forward_behavior_witness :
    (start_transport_stream_op (⟨10, -1, Option.none, Option.none⟩ : call_data)
      (⟨some ⟨5⟩, Option.none, Option.none, ()⟩ : transport_stream_op Unit)).2 =
      [.next_op ⟨some ⟨5⟩, Option.none, Option.none, ()⟩] :=
  (c5_forward_behavior _ _).2 rfl rfl

/-- C8: when forwarding, the only field the filter may have modified is
`recv_message_ready` (substituted by its own closure after saving the
caller's original into the call state); an op registering no receive is
forwarded entirely unchanged, with the call state untouched. -/
theorem c8_frame_only_recv_ready (calld : call_data) {ρ : Type}
    (op : transport_stream_op ρ) :
    (op.recv_message_ready = Option.none →
      forwarded_ops (start_transport_stream_op calld op).2 = [op] ∧
      (start_transport_stream_op calld op).1 = calld)
    ∧ (∀ c, op.recv_message_ready = some c →
        forwarded_ops (start_transport_stream_op calld op).2 =
          [{ op with recv_message_ready := some .filterRecv }] ∧
        (start_transport_stream_op calld op).1 =
          { calld with next_recv_message_ready := some c,
                       recv_message := op.recv_message }) := by
  constructor
  · intro h
    refine ⟨?_, start_state_of_no_recv calld op h⟩
    rw [start_forwarded calld op, h]
  · intro c h
    refine ⟨?_, start_state_of_recv calld op c h⟩
    rw [start_forwarded calld op, h]

/-- Witness for C8: no registration — forwarded verbatim; registration —
only the continuation slot substituted. -/
theorem c8_frame_only_recv_ready_witness :
    forwarded_ops (start_transport_stream_op
      (⟨-1, -1, Option.none, Option.none⟩ : call_data)
      (⟨Option.none, Option.none, Option.none, 42⟩ : transport_stream_op Nat)).2 =
      [⟨Option.none, Option.none, Option.none, 42⟩] ∧
    forwarded_ops (start_transport_stream_op
      (⟨-1, -1, Option.none, Option.none⟩ : call_data)
      (⟨Option.none, some 3, some (.caller 8), 42⟩ : transport_stream_op Nat)).2 =
      [⟨Option.none, some 3, some .filterRecv, 42⟩] :=
  ⟨((c8_frame_only_recv_ready _ _).1 rfl).1,
   ((c8_frame_only_recv_ready _ _).2 (.caller 8) rfl).1⟩

/-- C9: an operation registering a receive continuation overwrites the saved
slot unconditionally, whatever it held; concretely, registering twice
without an intervening completion makes the filter deliver only to the
second continuation — the first is never invoked — so exactly-once relies on
at most one receive being outstanding. -/
theorem c9_registration_overwrites (calld : call_data) {ρ : Type}
    (op : transport_stream_op ρ) (c : GrpcClosure)
    (h : op.recv_message_ready = some c) :
    (start_transport_stream_op calld op).1.next_recv_message_ready = some c
    ∧ sched_closures (run_call (⟨-1, -1, Option.none, Option.none⟩ : call_data)
        [.op Option.none Option.none (some (.caller 1)),
         .op Option.none Option.none (some (.caller 2)),
         .transport_complete Option.none .none]).2 = [some (.caller 2)] := by
  constructor
  · rw [start_state_of_recv calld op c h]
  · rfl

/-- Witness for C9: a registration overwrites a still-pending saved
continuation. -/
theorem c9_registration_overwrites_witness :
    (start_transport_stream_op
      (⟨-1, -1, Option.none, some (.caller 1)⟩ : call_data)
      (⟨Option.none, Option.none, some (.caller 9), ()⟩ :
        transport_stream_op Unit)).1.next_recv_message_ready =
      some (.caller 9) :=
  (c9_registration_overwrites _ _ (.caller 9) rfl).1

/-- C6: channel init defaults the send cap to `-1` (absent/unlimited) and
the recv cap to 4 194 304 bytes when the respective key is missing, and any
supplied integer value becomes the cap clamped to `[0, INT_MAX]`. -/
theorem c6_channel_init_keys (is_last : Bool) (args : channel_args)
    (st : channel_data) (h : init_channel_elem is_last args = .ok st) :
    (no_key args GRPC_ARG_MAX_SEND_MESSAGE_LENGTH → st.max_send_size = -1)
    ∧ (no_key args GRPC_ARG_MAX_RECEIVE_MESSAGE_LENGTH →
        st.max_recv_size = 4194304)
    ∧ (∀ i, last_arg_val args GRPC_ARG_MAX_SEND_MESSAGE_LENGTH =
          some (.integer i) → st.max_send_size = max 0 (min INT_MAX i))
    ∧ (∀ i, last_arg_val args GRPC_ARG_MAX_RECEIVE_MESSAGE_LENGTH =
          some (.integer i) → st.max_recv_size = max 0 (min INT_MAX i)) := by
  obtain ⟨h1, h2⟩ := init_channel_elem_ok_caps is_last args st h
  rw [scan_size_args_fst] at h1
  rw [scan_size_args_snd] at h2
  refine ⟨?_, ?_, ?_, ?_⟩
  · intro hn
    rw [last_arg_val_of_no_key args _ hn] at h1
    simpa [DEFAULT_MAX_SEND_MESSAGE_LENGTH] using h1
  · intro hn
    rw [last_arg_val_of_no_key args _ hn] at h2
    simpa [DEFAULT_MAX_RECV_MESSAGE_LENGTH] using h2
  · intro i hi
    rw [hi] at h1
    simpa [grpc_channel_arg_get_integer] using h1
  · intro i hi
    rw [hi] at h2
    simpa [grpc_channel_arg_get_integer] using h2

/-- Witness for C6: a negative supplied send value clamps to 0; a recv value
of 99 clamps to itself. -/
theorem c6_channel_init_keys_witness :
    ((⟨0, 99, Option.none⟩ : channel_data)).max_send_size =
      max 0 (min INT_MAX (-5 : Int)) ∧
    ((⟨0, 99, Option.none⟩ : channel_data)).max_recv_size =
      max 0 (min INT_MAX (99 : Int)) := by
  have h := c6_channel_init_keys false
    [(GRPC_ARG_MAX_SEND_MESSAGE_LENGTH, arg_value.integer (-5)),
     (GRPC_ARG_MAX_RECEIVE_MESSAGE_LENGTH, arg_value.integer 99)]
    ⟨0, 99, Option.none⟩ (by decide)
  exact ⟨h.2.2.1 (-5) (by decide), h.2.2.2 99 (by decide)⟩

/-- C7: with a well-typed (pointer or absent) service-config argument,
channel construction fails — with the is-last configuration assertion —
exactly when the filter is placed as the terminal element; in any
non-terminal position it succeeds. -/
theorem c7_terminal_placement_fails (is_last : Bool) (args : channel_args)
    (h : service_config_well_typed args = true) :
    (init_channel_elem is_last args = .error .isLastAssertFailed ↔
      is_last = true)
    ∧ (is_last = false → ∃ st, init_channel_elem is_last args = .ok st) := by
  cases is_last with
  | true =>
    exact ⟨⟨fun _ => rfl, fun _ => rfl⟩, fun hfal => Bool.noConfusion hfal⟩
  | false =>
    have hinit : ∃ st, init_channel_elem false args = .ok st := by
      rcases hf : grpc_channel_args_find args GRPC_ARG_SERVICE_CONFIG
        with _ | ⟨k, v⟩
      · refine ⟨⟨(scan_size_args args DEFAULT_MAX_SEND_MESSAGE_LENGTH
            DEFAULT_MAX_RECV_MESSAGE_LENGTH).1,
          (scan_size_args args DEFAULT_MAX_SEND_MESSAGE_LENGTH
            DEFAULT_MAX_RECV_MESSAGE_LENGTH).2, Option.none⟩, ?_⟩
        simp [init_channel_elem, hf]
      · rcases v with i | t | s
        · exfalso
          simp [service_config_well_typed, hf, arg_value.is_pointer] at h
        · refine ⟨⟨(scan_size_args args DEFAULT_MAX_SEND_MESSAGE_LENGTH
              DEFAULT_MAX_RECV_MESSAGE_LENGTH).1,
            (scan_size_args args DEFAULT_MAX_SEND_MESSAGE_LENGTH
              DEFAULT_MAX_RECV_MESSAGE_LENGTH).2,
            some (grpc_method_config_table_convert t)⟩, ?_⟩
          simp [init_channel_elem, hf]
        · exfalso
          simp [service_config_well_typed, hf, arg_value.is_pointer] at h
    obtain ⟨st, hst⟩ := hinit
    refine ⟨⟨fun he => ?_, fun ht => Bool.noConfusion ht⟩, fun _ => ⟨st, hst⟩⟩
    rw [hst] at he
    exact Except.noConfusion he

/-- Witness for C7: terminal placement fails, non-terminal succeeds. -/
theorem c7_terminal_placement_fails_witness :
    init_channel_elem true [] = .error .isLastAssertFailed ∧
    (∃ st, init_channel_elem false [] = .ok st) :=
  ⟨(c7_terminal_placement_fails true [] rfl).1.mpr rfl,
   (c7_terminal_placement_fails false [] rfl).2 rfl⟩

/-- C10: whenever channel construction succeeds, each cap equals the value
derived from the LAST occurrence of its key in the argument list (scanned in
order), with the defaults applying only when the key never occurs; earlier
occurrences have no effect on the result. -/
theorem c10_last_occurrence_wins (is_last : Bool) (args : channel_args)
    (st : channel_data) (h : init_channel_elem is_last args = .ok st) :
    st.max_send_size =
      (match last_arg_val args GRPC_ARG_MAX_SEND_MESSAGE_LENGTH with
       | Option.none => DEFAULT_MAX_SEND_MESSAGE_LENGTH
       | some v => grpc_channel_arg_get_integer v
           ⟨DEFAULT_MAX_SEND_MESSAGE_LENGTH, 0, INT_MAX⟩)
    ∧ st.max_recv_size =
      (match last_arg_val args GRPC_ARG_MAX_RECEIVE_MESSAGE_LENGTH with
       | Option.none => DEFAULT_MAX_RECV_MESSAGE_LENGTH
       | some v => grpc_channel_arg_get_integer v
           ⟨DEFAULT_MAX_RECV_MESSAGE_LENGTH, 0, INT_MAX⟩) := by
  obtain ⟨h1, h2⟩ := init_channel_elem_ok_caps is_last args st h
  rw [scan_size_args_fst] at h1
  rw [scan_size_args_snd] at h2
  exact ⟨h1, h2⟩

/-- Witness for C10: with the send key supplied twice (100 then 50), the
channel cap is the clamped value of the last occurrence, 50. -/
theorem c10_last_occurrence_wins_witness :
    ((⟨50, DEFAULT_MAX_RECV_MESSAGE_LENGTH, Option.none⟩ :
      channel_data)).max_send_size =
      grpc_channel_arg_get_integer (.integer 50)
        ⟨DEFAULT_MAX_SEND_MESSAGE_LENGTH, 0, INT_MAX⟩ := by
  have h := c10_last_occurrence_wins false
    [(GRPC_ARG_MAX_SEND_MESSAGE_LENGTH, .integer 100),
     (GRPC_ARG_MAX_SEND_MESSAGE_LENGTH, .integer 50)]
    ⟨50, DEFAULT_MAX_RECV_MESSAGE_LENGTH, Option.none⟩ (by decide)
  refine h.1.trans ?_
  decide
